import Mathlib

/-!
Verification of the block-kit table component family: a shallow embedding of
the row/filter/search/sort pipeline of the filter-capable TableBlock, the
pagination helpers, and the selection and pagination state of BaseTableBlock,
with theorems settling the specification claims about them.
-/

namespace BlockKit

/-- JS primitive cell values that may appear in a table row
(string | number | boolean | null | undefined; null and undefined are
collapsed into one constructor since the code only tests them with
loose equality against null). Numbers are modelled as integers. -/
inductive CellValue where
  | null : CellValue
  | num : Int → CellValue
  | str : String → CellValue
  | bool : Bool → CellValue
deriving DecidableEq

/-- JS value.toString() for the non-null cell values. -/
def CellValue.toStr : CellValue → String
  | .null => "null"
  | .num n => toString n
  | .str s => s
  | .bool b => if b then "true" else "false"

/-- JS loose null test (val == null). -/
def CellValue.isNull : CellValue → Bool
  | .null => true
  | _ => false

/-- JS truthiness of a cell value. -/
def CellValue.truthy : CellValue → Bool
  | .null => false
  | .num n => n != 0
  | .str s => s != ""
  | .bool b => b

/-- A table row: a flat record from string keys to primitive values,
modelled as an association list. -/
def Row := List (String × CellValue)

instance : DecidableEq Row := by
  unfold Row
  infer_instance

/-- Reading row[key]: a missing key yields undefined, modelled as null. -/
def rowGet (row : Row) (key : String) : CellValue :=
  match row.find? (fun p => p.1 == key) with
  | some p => p.2
  | none => .null

/-- The getRowId helper of BaseTableBlock: the stringified id field when
that field is truthy, else the stringified positional index. -/
def getRowId (row : Row) (idx : Nat) : String :=
  let id := rowGet row "id"
  if id.truthy then id.toStr else toString idx

/-- JS String.prototype.toLowerCase (ASCII range, which is all the code needs). -/
def jsToLower (s : String) : String :=
  ⟨s.data.map Char.toLower⟩

/-- Character-list prefix test (code-unit equality). -/
def charsHavePrefix : List Char → List Char → Bool
  | [], _ => true
  | _ :: _, [] => false
  | a :: as, b :: bs => a == b && charsHavePrefix as bs

/-- Does the needle occur as a contiguous run of the haystack? -/
def charsInclude (needle : List Char) : List Char → Bool
  | [] => charsHavePrefix needle []
  | b :: bs => charsHavePrefix needle (b :: bs) || charsInclude needle bs

/-- JS hay.includes(needle). -/
def jsIncludes (hay needle : String) : Bool :=
  charsInclude needle.data hay.data

/-- JS code-unit lexicographic comparison of character lists
(the order behind the string \< and \> operators). -/
def charListLt : List Char → List Char → Bool
  | [], [] => false
  | [], _ :: _ => true
  | _ :: _, [] => false
  | a :: as, b :: bs => if a < b then true else if b < a then false else charListLt as bs

/-- JS string a \< b. -/
def strLt (a b : String) : Bool := charListLt a.data b.data

/-- Sort direction (the asc | desc part of the tri-state sort). -/
inductive Dir where
  | asc : Dir
  | desc : Dir
deriving DecidableEq

/-- A filter option of a filter group: its filterFn is optional. -/
structure FilterOption where
  label : String
  value : String
  filterFn : Option (Row → Bool)

/-- A filter group: a named set of developer-provided filter options. -/
structure FilterGroup where
  id : String
  name : String
  options : List FilterOption

/-- A column descriptor of the filter-capable TableBlock. -/
structure TableColumn where
  header : String
  accessor : String
  sortable : Bool := false
deriving DecidableEq

/-- The synthesized value of the per-group All option. -/
def ALL_FILTER_VALUE : String := "__all__"

/-- The activeFilters record (group id to selected option value),
modelled as an association list; a missing key is undefined. -/
def ActiveFilters := List (String × String)

/-- activeFilters[group.id]. -/
def lookupActive (active : ActiveFilters) (gid : String) : Option String :=
  match List.find? (fun p => p.1 == gid) active with
  | some p => some p.2
  | none => none

/-- The group predicate applied inside dataAfterGlobalFilters: a missing
or falsy selection, the All value, an unknown option value, or an option
without a filterFn all let the row pass; otherwise the option's filterFn
decides. -/
def groupPasses (active : ActiveFilters) (g : FilterGroup) (row : Row) : Bool :=
  match lookupActive active g.id with
  | none => true
  | some v =>
    if v == "" || v == ALL_FILTER_VALUE then true
    else
      match List.find? (fun opt => opt.value == v) g.options with
      | some opt =>
        match opt.filterFn with
        | some f => f row
        | none => true
      | none => true

/-- The dataAfterGlobalFilters memo of TableBlock: with no filter groups or
an empty activeFilters record the data is returned unchanged; otherwise a
row survives when every group passes (logical AND across groups). -/
def dataAfterGlobalFilters (data : List Row) (filterGroups : List FilterGroup)
    (active : ActiveFilters) : List Row :=
  if filterGroups.isEmpty || active.isEmpty then data
  else data.filter (fun row => filterGroups.all (fun g => groupPasses active g row))

/-- The per-row search predicate of the filteredData memo: some column's
value is non-null and its string form, lower-cased, contains the
lower-cased search term. -/
def rowMatchesSearch (columns : List TableColumn) (term : String) (row : Row) : Bool :=
  columns.any (fun c =>
    let val := rowGet row c.accessor
    !val.isNull && jsIncludes (jsToLower val.toStr) (jsToLower term))

/-- The search stage as a function of an arbitrary row list: an empty
(falsy) search term returns the rows unchanged, otherwise rows are
filtered by rowMatchesSearch. -/
def searchStage (columns : List TableColumn) (term : String) (rows : List Row) : List Row :=
  if term == "" then rows
  else rows.filter (rowMatchesSearch columns term)

/-- The filteredData memo of TableBlock: the search stage applied to
dataAfterGlobalFilters. -/
def filteredData (data : List Row) (filterGroups : List FilterGroup)
    (active : ActiveFilters) (columns : List TableColumn) (term : String) : List Row :=
  let base := dataAfterGlobalFilters data filterGroups active
  if term == "" then base
  else base.filter (rowMatchesSearch columns term)

/-- The sort comparator of the sortedData memo, on two cell values under a
direction: nulls compare equal to each other and sort after non-null
values ascending (before them descending); two numbers compare by
subtraction; any other pair compares the toString forms with the JS
string comparison operators. -/
def sortCmp (dir : Dir) (av bv : CellValue) : Int :=
  if av.isNull && bv.isNull then 0
  else if av.isNull then (if dir = .asc then 1 else -1)
  else if bv.isNull then (if dir = .asc then -1 else 1)
  else
    match av, bv with
    | .num a, .num b => if dir = .asc then a - b else b - a
    | _, _ =>
      let avStr := av.toStr
      let bvStr := bv.toStr
      if avStr = bvStr then 0
      else if dir = .asc then (if strLt avStr bvStr then -1 else 1)
      else (if strLt bvStr avStr then -1 else 1)

/-- The array sort of the sortedData memo: a stable sort by the comparator
(JS Array.prototype.sort is stable), keeping a before b when
sortCmp dir a b is at most zero. -/
def jsSortRows (dir : Dir) (col : String) (rows : List Row) : List Row :=
  rows.mergeSort (fun a b => sortCmp dir (rowGet a col) (rowGet b col) ≤ 0)

/-- The sort stage as a function of an arbitrary row list: with an active
(truthy) column and a direction the rows are stably sorted by the
comparator, otherwise they are returned unchanged. -/
def sortStage (sortColumn : Option String) (sortDirection : Option Dir)
    (rows : List Row) : List Row :=
  match sortColumn, sortDirection with
  | some col, some dir => if col == "" then rows else jsSortRows dir col rows
  | _, _ => rows

/-- The sortedData memo of TableBlock: the sort stage applied to filteredData. -/
def sortedData (data : List Row) (filterGroups : List FilterGroup)
    (active : ActiveFilters) (columns : List TableColumn) (term : String)
    (sortColumn : Option String) (sortDirection : Option Dir) : List Row :=
  let fd := filteredData data filterGroups active columns term
  match sortColumn, sortDirection with
  | some col, some dir => if col == "" then fd else jsSortRows dir col fd
  | _, _ => fd

/-- The tableData state handed to BaseTableBlock: the setTableData effect
copies sortedData into it. -/
def tableData (data : List Row) (filterGroups : List FilterGroup)
    (active : ActiveFilters) (columns : List TableColumn) (term : String)
    (sortColumn : Option String) (sortDirection : Option Dir) : List Row :=
  sortedData data filterGroups active columns term sortColumn sortDirection

/-- An entry of the page-label sequence: a page number or the ellipsis marker. -/
inductive PageItem where
  | page : Int → PageItem
  | ellipsis : PageItem
deriving DecidableEq

/-- The integers from a to b inclusive (the for loop over p). -/
def pageRange (a b : Int) : List Int :=
  (List.range (b - a + 1).toNat).map (fun i => a + (i : Int))

/-- The getPageNumbers function of the PageNumbers pagination component:
a window of one page around the current page, widened at either edge,
with first and last page always present and runs collapsed to an
ellipsis marker. -/
def getPageNumbers (currentPage totalPages : Int) : List PageItem :=
  let sp0 := max 1 (currentPage - 1)
  let ep0 := min totalPages (currentPage + 1)
  let sp1 := if currentPage ≤ 2 then 1 else sp0
  let ep1 := if currentPage ≤ 2 then min 3 totalPages else ep0
  let ep2 := if currentPage ≥ totalPages - 1 then totalPages else ep1
  let sp2 := if currentPage ≥ totalPages - 1 then max 1 (totalPages - 2) else sp1
  [PageItem.page 1]
    ++ (if sp2 > 2 then [PageItem.ellipsis] else [])
    ++ ((pageRange sp2 ep2).filter (fun p => p != 1 && p != totalPages)).map PageItem.page
    ++ (if ep2 < totalPages - 1 then [PageItem.ellipsis] else [])
    ++ (if totalPages > 1 then [PageItem.page totalPages] else [])

/-! State model of BaseTableBlock pagination (for the pagination-state
invariant claim). BaseTableBlock holds currentPage in component state;
the handlers wired to the UI are: the page-number buttons of PageNumbers
(each a number occurring in getPageNumbers), First (page 1),
Previous (max 1 (page - 1)) and Next (min totalPages (page + 1)).
Changing the data or pageSize props re-renders with the same currentPage
state: no handler or effect re-clamps currentPage when data length or
page size changes. -/

/-- The state of BaseTableBlock relevant to pagination. -/
structure BaseState where
  dataLen : Nat
  pageSize : Nat
  page : Int
deriving DecidableEq

/-- totalPages as computed by BaseTableBlock:
max 1 (ceil (data.length / pageSize)). -/
def totalPages (s : BaseState) : Int :=
  max 1 (((s.dataLen + s.pageSize - 1) / s.pageSize : Nat) : Int)

/-- Events that reach BaseTableBlock's pagination state. -/
inductive BaseEvent where
  | clickFirst : BaseEvent
  | clickPrev : BaseEvent
  | clickNext : BaseEvent
  | clickPage : Int → BaseEvent
  | setData : Nat → BaseEvent
  | setPageSize : Nat → BaseEvent
deriving DecidableEq

/-- One step of BaseTableBlock's pagination state: the page buttons call
handlePageChange with their (clamped) target; data and pageSize prop
changes leave currentPage untouched. -/
def baseStep (s : BaseState) : BaseEvent → BaseState
  | .clickFirst => { s with page := 1 }
  | .clickPrev => { s with page := max 1 (s.page - 1) }
  | .clickNext => { s with page := min (totalPages s) (s.page + 1) }
  | .clickPage p => { s with page := p }
  | .setData n => { s with dataLen := n }
  | .setPageSize k => { s with pageSize := k }

/-- Run a sequence of events from a state. -/
def baseRun (s : BaseState) (evts : List BaseEvent) : BaseState :=
  evts.foldl baseStep s

/-! State model of the page-reset behavior of the two TableBlock
variants.

The search-only variant (src/blocks/data-block/TableBlock.tsx) owns
currentPage itself; its search effect (dependencies: searchTerm, data,
columns) recomputes tableData and then calls setCurrentPage 1, so any
event changing the search term ends with the page at 1.

The filter-capable variant (the TableBlock wrapping BaseTableBlock)
keeps the page inside BaseTableBlock. Its pageNumber prop is the
constant pageNumber prop of TableBlock (default 1) and its React key is
derived from sortColumn and sortDirection only, so the page state is
re-initialized exactly when the sort key changes (remount) and is left
untouched by search-term and filter-selection changes: nothing in either
component sets the page on those paths. -/

/-- State of the search-only TableBlock variant relevant to the claim. -/
structure SearchVariantState where
  search : String
  page : Int
deriving DecidableEq

/-- Events of the search-only variant. -/
inductive SearchVariantEvent where
  | setSearch : String → SearchVariantEvent
  | gotoPage : Int → SearchVariantEvent
deriving DecidableEq

/-- One step of the search-only variant: the search effect sets the page
to 1 whenever the search term input fires. -/
def searchVariantStep (s : SearchVariantState) : SearchVariantEvent → SearchVariantState
  | .setSearch t => { search := t, page := 1 }
  | .gotoPage p => { s with page := p }

/-- Run a sequence of events of the search-only variant. -/
def searchVariantRun (s : SearchVariantState) (evts : List SearchVariantEvent) :
    SearchVariantState :=
  evts.foldl searchVariantStep s

/-- The React key TableBlock puts on BaseTableBlock:
table-(sortColumn or none)-(sortDirection or none). -/
def sortKey (sortColumn : Option String) (sortDirection : Option Dir) : String :=
  "table-" ++ (match sortColumn with
               | some c => if c == "" then "none" else c
               | none => "none")
    ++ "-" ++ (match sortDirection with
               | some .asc => "asc"
               | some .desc => "desc"
               | none => "none")

/-- State of the filter-capable TableBlock variant relevant to the claim:
its own search, filter and sort state plus the page state living inside
the mounted BaseTableBlock. -/
structure FilterVariantState where
  search : String
  active : ActiveFilters
  sortColumn : Option String
  sortDirection : Option Dir
  page : Int

/-- Events of the filter-capable variant. -/
inductive FilterVariantEvent where
  | setSearch : String → FilterVariantEvent
  | setFilter : String → String → FilterVariantEvent
  | setSort : Option String → Option Dir → FilterVariantEvent
  | gotoPage : Int → FilterVariantEvent

/-- Writing a group selection into the activeFilters record. -/
def setActive (active : ActiveFilters) (gid v : String) : ActiveFilters :=
  match active with
  | [] => [(gid, v)]
  | (k, w) :: rest => if k == gid then (k, v) :: rest else (k, w) :: setActive rest gid v

/-- One step of the filter-capable variant, with the constant pageNumber
prop as a parameter: search and filter changes do not touch the page; a
sort change remounts BaseTableBlock (fresh page state from the prop)
exactly when the React key changes; a page event stores the target page. -/
def filterVariantStep (pageNumberProp : Int) (s : FilterVariantState) :
    FilterVariantEvent → FilterVariantState
  | .setSearch t => { s with search := t }
  | .setFilter gid v => { s with active := setActive s.active gid v }
  | .setSort c d =>
    if sortKey c d == sortKey s.sortColumn s.sortDirection then
      { s with sortColumn := c, sortDirection := d }
    else
      { s with sortColumn := c, sortDirection := d, page := pageNumberProp }
  | .gotoPage p => { s with page := p }

/-- Run a sequence of events of the filter-capable variant. -/
def filterVariantRun (pageNumberProp : Int) (s : FilterVariantState)
    (evts : List FilterVariantEvent) : FilterVariantState :=
  evts.foldl (filterVariantStep pageNumberProp) s

/-- The initial state of the filter-capable variant with default props. -/
def filterVariantInit : FilterVariantState :=
  { search := "", active := [], sortColumn := none, sortDirection := none, page := 1 }

/-! Selection model of BaseTableBlock in single-select mode
(selectable true, multiSelect false). The SelectionCell change handler
for this mode clears all row selection, selects the clicked row, and
invokes onSelectionChange with the one-element array holding the clicked
row. The effect that reports selectedFlatRows is guarded by multiSelect,
so in single-select mode these handler calls are the only emissions. -/

/-- One single-select click: the resulting internal selection (by row id)
and the row array passed to onSelectionChange. -/
def singleSelectClick (_selection : List String) (row : Row) (idx : Nat) :
    List String × List Row :=
  ([getRowId row idx], [row])

/-- Run a sequence of single-select clicks, accumulating every
onSelectionChange emission. -/
def singleSelectRun (clicks : List (Row × Nat)) : List String × List (List Row) :=
  clicks.foldl
    (fun acc c =>
      let r := singleSelectClick acc.1 c.1 c.2
      (r.1, acc.2 ++ [r.2]))
    ([], [])

/-! Specification-side comparison functions, used to compare the code's
sort comparator against a sign-valued three-way comparison. -/

/-- The sign of an integer comparator result. -/
def cmpSign (n : Int) : Int :=
  if n < 0 then -1 else if n = 0 then 0 else 1

/-- Three-way numeric comparison. -/
def intCmpSpec (x y : Int) : Int :=
  if x < y then -1 else if x = y then 0 else 1

/-- Three-way case-sensitive lexicographic (code-unit) string comparison. -/
def strCmpSpec (s t : String) : Int :=
  if s = t then 0 else if strLt s t then -1 else 1

/-- Modelled from the amended claim for the sort comparator: nulls compare
equal to each other and are treated as greater than every non-null value
(so they land at the end ascending and at the front descending); two
numbers compare numerically; every other pair compares by case-sensitive
lexicographic (code-unit) order of the stringified values; descending
reverses the comparison. -/
def cmpSpecAmended (dir : Dir) (a b : CellValue) : Int :=
  if a.isNull && b.isNull then 0
  else if a.isNull then (if dir = .asc then 1 else -1)
  else if b.isNull then (if dir = .asc then -1 else 1)
  else
    match a, b with
    | .num x, .num y => if dir = .asc then intCmpSpec x y else intCmpSpec y x
    | _, _ =>
      if dir = .asc then strCmpSpec a.toStr b.toStr
      else strCmpSpec b.toStr a.toStr

/-! Concrete demonstration data: the three-row dataset used by the spec's
scenarios and by the witnesses. -/

/-- The Alice row of the spec's scenario data. -/
def aliceRow : Row := [("name", CellValue.str "Alice"), ("age", CellValue.num 30)]

/-- The Bob row of the spec's scenario data. -/
def bobRow : Row := [("name", CellValue.str "Bob"), ("age", CellValue.num 25)]

/-- The Charlie row of the spec's scenario data. -/
def charlieRow : Row := [("name", CellValue.str "Charlie"), ("age", CellValue.num 35)]

/-- The scenario dataset. -/
def demoRows : List Row := [aliceRow, bobRow, charlieRow]

/-- The scenario columns. -/
def demoColumns : List TableColumn :=
  [⟨"Name", "name", true⟩, ⟨"Age", "age", true⟩]

/-- A demonstration filter group whose one real option keeps rows with
age at least 30. -/
def demoGroup : FilterGroup :=
  ⟨"age", "Age",
    [⟨"30 and over", "over30",
      some (fun r => match rowGet r "age" with
                     | CellValue.num n => decide (30 ≤ n)
                     | _ => false)⟩]⟩

/-- A demonstration filter group whose one option has no filterFn. -/
def demoGroupNoFn : FilterGroup :=
  ⟨"status", "Status", [⟨"Active", "active", none⟩]⟩

/-- C1: for every data array, filter-group configuration, active filter
selection, search term and sort state, the row set the filter-capable
TableBlock hands to BaseTableBlock equals the sort stage applied to the
search stage applied to the filter-group stage applied to the full data,
each stage strictly preceding the next. -/
theorem tableData_pipeline_order (data : List Row) (filterGroups : List FilterGroup)
    (active : ActiveFilters) (columns : List TableColumn) (term : String)
    (sortColumn : Option String) (sortDirection : Option Dir) :
    tableData data filterGroups active columns term sortColumn sortDirection =
      sortStage sortColumn sortDirection
        (searchStage columns term (dataAfterGlobalFilters data filterGroups active)) := by
  cases sortColumn <;> cases sortDirection <;> rfl

/-- C2 counterexample: the sort comparator is not case-insensitive. On the
pair of strings a and B ascending it returns 1 (placing B before a),
although lower-cased a precedes lower-cased B, so a case-insensitive
comparison would return a negative result. -/
theorem sortCmp_not_case_insensitive :
    sortCmp Dir.asc (CellValue.str "a") (CellValue.str "B") = 1 ∧
    strLt (jsToLower "a") (jsToLower "B") = true := by
  decide

/-- C2 amended: for every direction and pair of cell values, the sign of
the sort comparator agrees with the amended specification comparator:
nulls compare equal to each other and sort as greater than every
non-null value, two numbers compare numerically, and every other pair
compares by case-sensitive lexicographic (code-unit) order of the
stringified values. -/
theorem sortCmp_matches_amended_spec (dir : Dir) (a b : CellValue) :
    cmpSign (sortCmp dir a b) = cmpSpecAmended dir a b := by
  have h0 : cmpSign 0 = 0 := by decide
  have h1 : cmpSign 1 = 1 := by decide
  have hm1 : cmpSign (-1) = -1 := by decide
  have hsub : ∀ x y : Int, cmpSign (x - y) = intCmpSpec x y := by
    intro x y
    unfold cmpSign intCmpSpec
    split_ifs <;> omega
  have hstr : ∀ s t : String,
      cmpSign (if s = t then 0 else if strLt s t then (-1 : Int) else 1) = strCmpSpec s t := by
    intro s t
    unfold cmpSign strCmpSpec
    split_ifs <;> omega
  have hstr2 : ∀ s t : String,
      cmpSign (if s = t then 0 else if strLt t s then (-1 : Int) else 1) = strCmpSpec t s := by
    intro s t
    have h := hstr t s
    rcases eq_or_ne s t with rfl | hne
    · simpa using h
    · rw [if_neg (Ne.symm hne)] at h
      rw [if_neg hne]
      exact h
  cases a <;> cases b <;> cases dir <;>
    simp [sortCmp, cmpSpecAmended, CellValue.isNull, h0, h1, hm1, hsub, hstr, hstr2]

/-- C3: the PageNumbers page-label computation produces the two sequences
the spec gives as examples: 1 2 3 ellipsis 5 for page 1 of 5, and
1 ellipsis 3 4 5 for page 5 of 5. -/
theorem getPageNumbers_spec_examples :
    getPageNumbers 1 5 =
      [PageItem.page 1, PageItem.page 2, PageItem.page 3, PageItem.ellipsis, PageItem.page 5] ∧
    getPageNumbers 5 5 =
      [PageItem.page 1, PageItem.ellipsis, PageItem.page 3, PageItem.page 4, PageItem.page 5] := by
  decide

/-- C4: the search-only TableBlock variant does reset the page to 1 on
every search-term change, but the filter-capable variant does not: at
the failing input (go to page 2, then type a search term) the page held
by BaseTableBlock stays 2, although the claim requires 1. The comment in
the filter-capable TableBlock says the page will reset automatically in
BaseTableBlock when the data changes, but BaseTableBlock has no such
reset. -/
theorem pageReset_divergence :
    (∀ (s : SearchVariantState) (t : String),
      (searchVariantStep s (SearchVariantEvent.setSearch t)).page = 1) ∧
    (filterVariantRun 1 filterVariantInit
      [FilterVariantEvent.gotoPage 2, FilterVariantEvent.setSearch "x"]).page = 2 := by
  exact ⟨fun _ _ => rfl, rfl⟩

/-- C5: BaseTableBlock does not re-clamp its page when the data shrinks.
At the failing input (25 rows, page size 10, Next clicked twice so the
page is 3, then the data shrinks to 5 rows) the page stays 3 while
totalPages is 1, violating the claimed invariant page at most
ceil(rows / pageSize). -/
theorem basePage_not_reclamped_on_data_change :
    (baseRun ⟨25, 10, 1⟩ [BaseEvent.clickNext, BaseEvent.clickNext, BaseEvent.setData 5]).page = 3 ∧
    totalPages (baseRun ⟨25, 10, 1⟩
      [BaseEvent.clickNext, BaseEvent.clickNext, BaseEvent.setData 5]) = 1 ∧
    ¬((baseRun ⟨25, 10, 1⟩
        [BaseEvent.clickNext, BaseEvent.clickNext, BaseEvent.setData 5]).page ≤
      totalPages (baseRun ⟨25, 10, 1⟩
        [BaseEvent.clickNext, BaseEvent.clickNext, BaseEvent.setData 5])) := by
  decide

/-- C6: in single-select mode of BaseTableBlock, clicking row A and then a
distinct row B makes onSelectionChange report exactly the one-element
array with A and then exactly the one-element array with B, and every
reported selection holds exactly one row. -/
theorem singleSelect_reports_exactly_clicked_row (A B : Row) (i j : Nat) (h : A ≠ B) :
    (singleSelectRun [(A, i), (B, j)]).2 = [[A], [B]] ∧
    ∀ e ∈ (singleSelectRun [(A, i), (B, j)]).2, e.length = 1 := by
  refine ⟨rfl, ?_⟩
  intro e he
  have h2 : (singleSelectRun [(A, i), (B, j)]).2 = [[A], [B]] := rfl
  rw [h2] at he
  simp only [List.mem_cons, List.not_mem_nil, or_false] at he
  rcases he with rfl | rfl
  · rfl
  · rfl

/-- C6 witness: the theorem applied to the distinct Alice and Bob rows. -/
theorem singleSelect_reports_exactly_clicked_row_witness :
    (singleSelectRun [(aliceRow, 0), (bobRow, 1)]).2 = [[aliceRow], [bobRow]] ∧
    ∀ e ∈ (singleSelectRun [(aliceRow, 0), (bobRow, 1)]).2, e.length = 1 :=
  singleSelect_reports_exactly_clicked_row aliceRow bobRow 0 1 (by decide)

/-- C7: for a non-empty search term a row survives the search stage iff it
was present and some column's value is non-null and its string form,
lower-cased, contains the lower-cased term; the empty term is a no-op;
and the term ali against the Alice, Bob, Charlie rows keeps only the
Alice row. -/
theorem searchStage_characterization (columns : List TableColumn) (term : String)
    (rows : List Row) (row : Row) :
    (term ≠ "" →
      (row ∈ searchStage columns term rows ↔
        row ∈ rows ∧ ∃ c ∈ columns, (rowGet row c.accessor).isNull = false ∧
          jsIncludes (jsToLower (rowGet row c.accessor).toStr) (jsToLower term) = true)) ∧
    searchStage columns "" rows = rows ∧
    searchStage demoColumns "ali" demoRows = [aliceRow] := by
  refine ⟨?_, ?_, ?_⟩
  · intro hterm
    have hb : (term == "") = false := by
      simpa using hterm
    simp [searchStage, hb, List.mem_filter, rowMatchesSearch, List.any_eq_true,
      Bool.and_eq_true, Bool.not_eq_true']
  · simp [searchStage]
  · decide

/-- C7 witness: the characterization applied to the Alice row, the
scenario columns and rows, and the term ali. -/
theorem searchStage_characterization_witness :
    aliceRow ∈ searchStage demoColumns "ali" demoRows ↔
      aliceRow ∈ demoRows ∧ ∃ c ∈ demoColumns, (rowGet aliceRow c.accessor).isNull = false ∧
        jsIncludes (jsToLower (rowGet aliceRow c.accessor).toStr) (jsToLower "ali") = true :=
  (searchStage_characterization demoColumns "ali" demoRows aliceRow).1 (by decide)

/-- C8: if the active selection of every filter group is the synthesized
All value, the filter stage is the identity on the data array. -/
theorem allFilters_all_is_identity (data : List Row) (filterGroups : List FilterGroup)
    (active : ActiveFilters)
    (h : ∀ g ∈ filterGroups, lookupActive active g.id = some ALL_FILTER_VALUE) :
    dataAfterGlobalFilters data filterGroups active = data := by
  unfold dataAfterGlobalFilters
  split
  · rfl
  · have hall : ∀ row : Row, filterGroups.all (fun g => groupPasses active g row) = true := by
      intro row
      refine List.all_eq_true.mpr ?_
      intro g hg
      unfold groupPasses
      rw [h g hg]
      rfl
    simp [hall]

/-- C8 witness: the identity at the scenario rows with a group whose
filterFn keeps only rows of age at least 30, with All selected. -/
theorem allFilters_all_is_identity_witness :
    dataAfterGlobalFilters demoRows [demoGroup] [("age", ALL_FILTER_VALUE)] = demoRows :=
  allFilters_all_is_identity demoRows [demoGroup] [("age", ALL_FILTER_VALUE)]
    (by
      intro g hg
      rw [List.mem_singleton] at hg
      subst hg
      rfl)

/-- C9: for a filter option without a filterFn, selecting that option
applies no filtering for its group: every row passes the group
predicate (which is total, so no exception can be thrown). -/
theorem missing_filterFn_passes_every_row (active : ActiveFilters) (g : FilterGroup)
    (row : Row) (v : String) (opt : FilterOption)
    (hsel : lookupActive active g.id = some v)
    (hreal : (v == "" || v == ALL_FILTER_VALUE) = false)
    (hfind : List.find? (fun o => o.value == v) g.options = some opt)
    (hfn : opt.filterFn = none) :
    groupPasses active g row = true := by
  simp [groupPasses, hsel, hreal, hfind, hfn]

/-- C9 witness: a group whose selected option active has no filterFn lets
the Alice row pass. -/
theorem missing_filterFn_passes_every_row_witness :
    groupPasses [("status", "active")] demoGroupNoFn aliceRow = true :=
  missing_filterFn_passes_every_row [("status", "active")] demoGroupNoFn aliceRow
    "active" ⟨"Active", "active", none⟩ rfl rfl rfl rfl

/-- C10: getRowId returns the stringified id when the id field is truthy
and the stringified index otherwise; in particular a row whose id is 0,
the empty string, or absent is identified by its position. -/
theorem getRowId_truthiness (row : Row) (idx : Nat) :
    ((rowGet row "id").truthy = true → getRowId row idx = (rowGet row "id").toStr) ∧
    (rowGet row "id" = CellValue.num 0 → getRowId row idx = toString idx) ∧
    (rowGet row "id" = CellValue.str "" → getRowId row idx = toString idx) ∧
    (rowGet row "id" = CellValue.null → getRowId row idx = toString idx) := by
  refine ⟨?_, ?_, ?_, ?_⟩
  · intro h
    simp [getRowId, h]
  · intro h
    simp [getRowId, h, CellValue.truthy]
  · intro h
    simp [getRowId, h, CellValue.truthy]
  · intro h
    simp [getRowId, h, CellValue.truthy]

/-- C10 witness: a row whose id field is the number 0 is identified by
its position 5. -/
theorem getRowId_truthiness_witness :
    getRowId [("id", CellValue.num 0)] 5 = toString 5 :=
  (getRowId_truthiness [("id", CellValue.num 0)] 5).2.1 rfl

end BlockKit
